import Mathlib

/-!
Verification of the platform-research/article-generation service
(`src/services/platformResearchService.ts`) via a shallow embedding in Lean.

Pure functions of the service are translated directly; the external model
calls (OpenRouter / Perplexity) and the JSON parser are made explicit
oracle parameters, and `localStorage`-backed caches are modelled as
association lists threaded through the functions.  JavaScript strings are
modelled as Lean `String` (code-point indexing; the texts involved are
BMP-only), JavaScript numbers used for backoff delays as `ℚ` (the values
involved are exactly representable), and `Date.now()` timestamps as `Nat`
milliseconds.
-/

/-- JavaScript `String.prototype.toLowerCase` (ASCII-relevant part). -/
def jsToLower (s : String) : String :=
  String.mk (s.data.map Char.toLower)

/-- Is `needle` a contiguous sublist of `hay`?  Models
JavaScript `String.prototype.includes` on the char lists. -/
def listContainsSub (hay needle : List Char) : Bool :=
  match hay with
  | [] => needle.isEmpty
  | _ :: t => needle.isPrefixOf hay || listContainsSub t needle

/-- JavaScript `hay.includes(needle)`. -/
def strContains (hay needle : String) : Bool :=
  listContainsSub hay.data needle.data

/-- JavaScript `s.startsWith(p)`. -/
def jsStartsWith (s p : String) : Bool :=
  p.data.isPrefixOf s.data

/-- The whitespace characters JavaScript `String.prototype.trim`
removes (the ones relevant to this service's inputs). -/
def jsTrimSpace (c : Char) : Bool :=
  c = ' ' || c = '\t' || c = '\n' || c = '\r' ||
  c = Char.ofNat 11 || c = Char.ofNat 12 || c = Char.ofNat 160

/-- JavaScript `s.trim()`. -/
def jsTrim (s : String) : String :=
  String.mk (((s.data.dropWhile jsTrimSpace).reverse.dropWhile jsTrimSpace).reverse)

/-- JavaScript `arr.join(sep)`. -/
def joinSep (sep : String) : List String → String
  | [] => ""
  | [x] => x
  | x :: y :: t => x ++ sep ++ joinSep sep (y :: t)

/-- The regex replacement `s.replace(/^www\./, '')`: strip a single
leading `www.` when present. -/
def stripLeadingWww (s : String) : String :=
  if jsStartsWith s "www." then String.mk (s.data.drop 4) else s

/-- Replace the first occurrence of `needle` (non-empty) in `hay` by
`repl`; models JavaScript `hay.replace(needle, repl)` with a string
pattern, which substitutes only the first occurrence. -/
def listReplaceFirst (hay needle repl : List Char) : List Char :=
  match hay with
  | [] => []
  | c :: t =>
      if needle.isPrefixOf (c :: t) then repl ++ (c :: t).drop needle.length
      else c :: listReplaceFirst t needle repl

/-- JavaScript `hay.replace(needle, repl)` for a non-empty string pattern. -/
def jsReplaceFirst (hay needle repl : String) : String :=
  String.mk (listReplaceFirst hay.data needle.data repl.data)

/-- First index at which `needle` occurs in `hay`, by code points;
models JavaScript `hay.indexOf(needle)` (with `none` for `-1`). -/
def indexOfStr (hay needle : String) : Option Nat :=
  ((List.range (hay.data.length + 1)).filter
    (fun i => needle.data.isPrefixOf (hay.data.drop i))).head?

/-- Last index at which `needle` occurs in `hay`; models
JavaScript `hay.lastIndexOf(needle)` (with `none` for `-1`). -/
def lastIndexOfStr (hay needle : String) : Option Nat :=
  ((List.range (hay.data.length + 1)).filter
    (fun i => needle.data.isPrefixOf (hay.data.drop i))).getLast?

/-- JavaScript `s.slice(0, n)` (code-point indexing). -/
def stringTake (s : String) (n : Nat) : String :=
  String.mk (s.data.take n)

/-- JavaScript `s.slice(n)` (code-point indexing). -/
def stringDrop (s : String) (n : Nat) : String :=
  String.mk (s.data.drop n)

/-- Keep the first occurrence of every element, dropping later
duplicates; models `arr.filter((v, i, a) => a.indexOf(v) === i)`.
`fuel` bounds the recursion; filtering never lengthens the tail, so
`fuel = l.length` always suffices. -/
def dedupFirstFuel : Nat → List String → List String
  | 0, _ => []
  | _, [] => []
  | fuel + 1, x :: t => x :: dedupFirstFuel fuel (t.filter (fun y => y ≠ x))

/-- `arr.filter((v, i, a) => a.indexOf(v) === i)`. -/
def dedupFirst (l : List String) : List String :=
  dedupFirstFuel l.length l

/-- Hex digit (uppercase), for percent-encoding. -/
def hexDigitChar (n : Nat) : Char :=
  if n < 10 then Char.ofNat (48 + n) else Char.ofNat (55 + n)

/-- Characters `encodeURIComponent` leaves unescaped. -/
def isUriUnreserved (c : Char) : Bool :=
  c.isAlphanum || c = '-' || c = '_' || c = '.' || c = '!' ||
  c = '~' || c = '*' || c = Char.ofNat 39 || c = '(' || c = ')'

/-- Percent-encode one byte. -/
def percentByte (b : UInt8) : String :=
  String.mk ['%', hexDigitChar (b.toNat / 16), hexDigitChar (b.toNat % 16)]

/-- Models the JavaScript builtin `encodeURIComponent`: unreserved
characters pass through, every other character is replaced by the
percent-encoding of its UTF-8 bytes. -/
def encodeURIComponentModel (s : String) : String :=
  String.join (s.data.map (fun c =>
    if isUriUnreserved c then String.mk [c]
    else String.join (((String.mk [c]).toUTF8.toList).map percentByte)))

/-- `buildGoogleSearchUrl` from the service: a deterministic search link
built from the title. -/
def buildGoogleSearchUrl (title : String) : String :=
  "https://www.google.com/search?q=" ++ encodeURIComponentModel title

/-- Valid URL scheme: a letter followed by letters, digits, `+`, `-`, `.`. -/
def validScheme (s : String) : Bool :=
  match s.data with
  | [] => false
  | c :: t =>
      c.isAlpha && t.all (fun d => d.isAlphanum || d = '+' || d = '-' || d = '.')

/-- Models the browser builtin `new URL(u).hostname` for the URL shapes
this service handles: `none` when parsing throws (in particular for any
string without a `scheme://` part, e.g. a bare `www.foo`), otherwise the
lower-cased host between the scheme and the first `/`, `?` or `#`, with
any `user@` prefix and `:port` suffix removed. -/
def urlHostname (u : String) : Option String :=
  match indexOfStr u "://" with
  | none => none
  | some i =>
      if validScheme (stringTake u i) = false then none
      else
        let rest := stringDrop u (i + 3)
        let authority := rest.data.takeWhile (fun c => c ≠ '/' && c ≠ '?' && c ≠ '#')
        let afterUser :=
          match (authority.reverse.takeWhile (fun c => c ≠ '@')) with
          | l => l.reverse
        let host := afterUser.takeWhile (fun c => c ≠ ':')
        if host.isEmpty then none else some (jsToLower (String.mk host))

/-! ## Data model (from `src/types.ts`) -/

/-- `VerticalType = 'gambling' | 'crypto'`. -/
inductive Vertical where
  | gambling
  | crypto
deriving DecidableEq, Repr

/-- The `Language` enum. -/
inductive JsLanguage where
  | english
  | thai
  | vietnamese
  | japanese
  | korean
deriving DecidableEq, Repr

/-- The `ResearchModel` enum (its declaration file is not included in the
repository snapshot; the two members are the ones the service uses). -/
inductive ResearchModelSel where
  | tongyiDeepResearch
  | perplexitySonar
deriving DecidableEq, Repr

/-- `Citation` from `types.ts`. -/
structure Citation where
  title : String
  sourceUrl : String
  googleSearchUrl : String
  domain : String
deriving DecidableEq, Repr

/-- `PlatformInfosheet` from `types.ts` (the fields the research service
reads and writes; the optional per-vertical extras it never touches are
omitted). -/
structure PlatformInfosheet where
  license : String
  country : String
  company : String
  yearEstablished : String
  minDeposit : String
  payoutSpeed : String
  supportedCurrencies : List String
  paymentMethods : List String
  dataSource : String
  retrievedAt : String
deriving DecidableEq, Repr

/-- `PlatformResearch` from `types.ts`; `researchStatus` keeps the
literal union values as strings. -/
structure PlatformResearch where
  name : String
  shortDescription : String
  infosheet : PlatformInfosheet
  keyFeatures : List String
  pros : List String
  cons : List String
  rawResearchSummary : String
  citations : List Citation
  researchStatus : String
  error : Option String
deriving DecidableEq, Repr

/-- `RatingCategory` from `types.ts` (`score` is an integer 1-10 in
practice; modelled as `ℚ` since it arrives from JSON). -/
structure RatingCategory where
  category : String
  score : ℚ
deriving DecidableEq, Repr

/-- `ComparisonTableRow` from `types.ts`. -/
structure ComparisonTableRow where
  platformName : String
  license : String
  minDeposit : String
  payoutSpeed : String
  rating : String
deriving DecidableEq, Repr

/-- `FAQ` from `types.ts`. -/
structure FAQ where
  question : String
  answer : String
deriving DecidableEq, Repr

/-- `SeoMetadata` from `types.ts`. -/
structure SeoMetadata where
  title : String
  metaDescription : String
  slug : String
  imagePrompt : String
  imageAltText : String
deriving DecidableEq, Repr

/-- `PlatformReview` from `types.ts`. -/
structure PlatformReview where
  platformName : String
  overview : String
  infosheet : PlatformInfosheet
  ratings : List RatingCategory
  pros : List String
  cons : List String
  verdict : String
  affiliateUrl : Option String
  citations : List Citation
deriving DecidableEq, Repr

/-- `PlatformInput` from `types.ts`. -/
structure PlatformInput where
  name : String
  affiliateUrl : Option String
deriving DecidableEq, Repr

/-- `GeneratedArticle` from `types.ts` (`additionalSections` carries
opaque HTML; modelled as strings). -/
structure GeneratedArticle where
  intro : String
  platformQuickList : List (String × String)
  comparisonTable : List ComparisonTableRow
  platformReviews : List PlatformReview
  additionalSections : List String
  faqs : List FAQ
  allCitations : List Citation
  seoMetadata : Option SeoMetadata
deriving DecidableEq, Repr

/-! ## Retry executor (`withRetry`) -/

/-- The lower-cased transient markers tested by `withRetry` (everything
except the case-sensitive `'503'` test). -/
def lowerTransientMarkers : List String :=
  ["overloaded", "unavailable", "rate limit", "econnreset",
   "connection reset", "incomplete envelope", "protocol error",
   "networkerror", "failed to fetch"]

/-- `withRetry`'s transient-error classification of an error message. -/
def isRetryableMsg (msg : String) : Bool :=
  strContains msg "503" ||
  lowerTransientMarkers.any (fun m => strContains (jsToLower msg) m)

/-- `withRetry`'s overload test choosing the larger backoff multiplier. -/
def is503Msg (msg : String) : Bool :=
  strContains msg "503" || strContains (jsToLower msg) "overloaded"

/-- The backoff multiplier: 2.5 for 503/overload errors, 2 otherwise. -/
def backoffMultiplier (msg : String) : ℚ :=
  if is503Msg msg then 5 / 2 else 2

/-- The delay slept before retry number `attempt + 1`:
`min(baseDelayMs * multiplier^attempt, 60000)`. -/
def retryDelayMs (baseDelayMs : ℚ) (msg : String) (attempt : Nat) : ℚ :=
  min (baseDelayMs * (backoffMultiplier msg) ^ attempt) 60000

/-- Observable outcome of one `withRetry` execution: the value or the
propagated error, the sleeps performed (in order), and how many times the
wrapped operation was invoked. -/
structure RetryOutcome (α : Type) where
  result : Except String α
  sleeps : List ℚ
  calls : Nat
deriving Repr

/-- The retry loop of `withRetry`, with the wrapped operation modelled by
`behavior : Nat → Except String α` giving the outcome of each invocation
(indexed by attempt number).  `rem` is the remaining retry budget; the
loop maintains `attempt + rem = maxRetries`, so `rem = 0` is the
`attempt === maxRetries` exit. -/
def withRetryGo (behavior : Nat → Except String α) (baseDelayMs : ℚ) :
    Nat → Nat → RetryOutcome α
  | attempt, rem =>
      match behavior attempt with
      | Except.ok v => ⟨Except.ok v, [], 1⟩
      | Except.error msg =>
          if isRetryableMsg msg = false then ⟨Except.error msg, [], 1⟩
          else
            match rem with
            | 0 => ⟨Except.error msg, [], 1⟩
            | rem' + 1 =>
                let rest := withRetryGo behavior baseDelayMs (attempt + 1) rem'
                ⟨rest.result, retryDelayMs baseDelayMs msg attempt :: rest.sleeps,
                 rest.calls + 1⟩

/-- `withRetry(fn, maxRetries, baseDelayMs)`. -/
def withRetryModel (behavior : Nat → Except String α) (maxRetries : Nat)
    (baseDelayMs : ℚ) : RetryOutcome α :=
  withRetryGo behavior baseDelayMs 0 maxRetries

/-! ## Citation normalizer -/

/-- `isProbablyUrl` from the service. -/
def isProbablyUrl (value : String) : Bool :=
  jsStartsWith (jsToLower (jsTrim value)) "http://" ||
  jsStartsWith (jsToLower (jsTrim value)) "https://"

/-- One element of `extractCitationsFromSources`'s mapping step: the
`Citation` built from a single (trimmed, non-empty) source string. -/
def citationOfSource (source : String) : Citation :=
  if isProbablyUrl source then
    let domain := stripLeadingWww ((urlHostname source).getD "source")
    { title := source, sourceUrl := source,
      googleSearchUrl := buildGoogleSearchUrl source, domain := domain }
  else
    { title := source, sourceUrl := buildGoogleSearchUrl source,
      googleSearchUrl := buildGoogleSearchUrl source, domain := "research" }

/-- `extractCitationsFromSources` from the service. -/
def extractCitationsFromSources (sources : List String) : List Citation :=
  (((sources.map (fun s => jsTrim s)).filter (fun s => s ≠ "")).map citationOfSource)

/-- The per-URL `Citation` built by `researchPlatform`'s Perplexity
citation path.  Note the unanchored `hostname.replace('www.', '')` (first
occurrence anywhere) and the raw-URL fallback when parsing throws. -/
def perplexityCitationOfUrl (url : String) : Citation :=
  match urlHostname url with
  | some h =>
      let domain := jsReplaceFirst h "www." ""
      { title := domain, sourceUrl := url,
        googleSearchUrl := buildGoogleSearchUrl domain, domain := domain }
  | none =>
      { title := url, sourceUrl := url,
        googleSearchUrl := buildGoogleSearchUrl url, domain := url }

/-- `deduplicateCitations`: keep the first citation per lower-cased
domain. -/
def deduplicateCitationsGo (seen : List String) : List Citation → List Citation
  | [] => []
  | c :: t =>
      if jsToLower c.domain ∈ seen then deduplicateCitationsGo seen t
      else c :: deduplicateCitationsGo (jsToLower c.domain :: seen) t

/-- `deduplicateCitations` from the service. -/
def deduplicateCitations (citations : List Citation) : List Citation :=
  deduplicateCitationsGo [] citations

/-- `buildCitationAnchor` from the service. -/
def buildCitationAnchor (citation : Citation) : String :=
  let hasRealUrl :=
    decide (citation.sourceUrl ≠ "") &&
    !(strContains citation.sourceUrl "google.com/search") &&
    jsStartsWith citation.sourceUrl "http"
  let href := if hasRealUrl then citation.sourceUrl else citation.googleSearchUrl
  "<a href=\"" ++ href ++ "\" target=\"_blank\" rel=\"noopener noreferrer\">(" ++
    citation.domain ++ ")</a>"

/-- JavaScript regex `\s` (the whitespace characters relevant here). -/
def jsSpace (c : Char) : Bool :=
  c = ' ' || c = '\t' || c = '\n' || c = '\r' ||
  c = Char.ofNat 11 || c = Char.ofNat 12 || c = Char.ofNat 160

/-- Last index (if any) at which `needle` occurs inside the list `l`. -/
def lastSubIdx (l needle : List Char) : Option Nat :=
  ((List.range (l.length + 1)).filter
    (fun i => needle.isPrefixOf (l.drop i))).getLast?

/-- A match of the regex `<a\s+[^>]*href=` starting at the head of `l`
(already lower-cased): returns the number of characters the (greedy)
match consumes, or `none`. -/
def anchorConsumed (l : List Char) : Option Nat :=
  match l with
  | '<' :: 'a' :: rest =>
      let ws := rest.takeWhile jsSpace
      if ws.isEmpty then none
      else
        let afterWs := rest.drop ws.length
        let span := afterWs.takeWhile (fun c => c ≠ '>')
        match lastSubIdx span "href=".data with
        | some k => some (2 + ws.length + k + 5)
        | none => none
  | _ => none

/-- Count the non-overlapping matches of `/<a\s+[^>]*href=/gi`, scanning
left to right and resuming after each (greedy) match, as the JavaScript
regex engine does.  `fuel` bounds the recursion; each step consumes at
least one character, so `fuel = l.length` is always sufficient. -/
def countLinksFuel : Nat → List Char → Nat
  | 0, _ => 0
  | _, [] => 0
  | fuel + 1, c :: t =>
      match anchorConsumed (c :: t) with
      | some n => 1 + countLinksFuel fuel ((c :: t).drop (max n 1))
      | none => countLinksFuel fuel t

/-- `(html.match(/<a\s+[^>]*href=/gi) || []).length` from
`ensureInTextCitations` (case-insensitivity via lower-casing). -/
def countLinks (html : String) : Nat :=
  countLinksFuel (jsToLower html).data.length (jsToLower html).data

/-- The placement step of `ensureInTextCitations`: splice the anchors in
just before the last `</p>`, or append them at the very end when no
closing paragraph tag exists. -/
def injectAnchors (html anchors : String) : String :=
  match lastIndexOfStr html "</p>" with
  | some i => stringTake html i ++ " " ++ anchors ++ stringDrop html i
  | none => html ++ " " ++ anchors

/-- `ensureInTextCitations` from the service. -/
def ensureInTextCitations (html : String) (citations : List Citation)
    (minCount : Nat) : String :=
  if html = "" then html
  else if citations = [] then html
  else
    let linkCount := countLinks html
    if minCount ≤ linkCount then html
    else
      let needed := min citations.length (minCount - linkCount)
      let anchors := joinSep " " ((citations.take needed).map buildCitationAnchor)
      if anchors = "" then html
      else injectAnchors html anchors

/-! ## Platform research function (`researchPlatform`) -/

/-- A JavaScript JSON value as it appears among the infosheet fields
(strings or arrays of strings in this service's payloads). -/
inductive JsVal where
  | str (s : String)
  | arr (xs : List String)
deriving DecidableEq, Repr

/-- JavaScript truthiness: non-empty for strings; arrays (even empty
ones) are truthy. -/
def jsTruthy : JsVal → Bool
  | JsVal.str s => s ≠ ""
  | JsVal.arr _ => true

/-- JavaScript `String(v)`: arrays are joined with commas. -/
def jsValToString : JsVal → String
  | JsVal.str s => s
  | JsVal.arr xs => joinSep "," xs

/-- The data-quality gate's per-field test from `researchPlatform`:
`v && String(v).toLowerCase() !== 'unknown' && ... !== 'not publicly disclosed'`. -/
def gateFieldGood (v : JsVal) : Bool :=
  jsTruthy v &&
  decide (jsToLower (jsValToString v) ≠ "unknown") &&
  decide (jsToLower (jsValToString v) ≠ "not publicly disclosed")

/-- Number of populated (non-placeholder) infosheet fields. -/
def countGoodFields (vs : List JsVal) : Nat :=
  (vs.filter gateFieldGood).length

/-- The structured research response (`ResearchResponse`) as parsed from
the final model output; `infosheet` is `none` when the JSON lacks an
`infosheet` member. -/
structure ParsedResearch where
  shortDescription : String
  infosheet : Option PlatformInfosheet
  keyFeatures : List String
  pros : List String
  cons : List String
  sources : List String
deriving DecidableEq, Repr

/-- An OpenRouter chat message. -/
structure ORMessage where
  role : String
  content : String
deriving DecidableEq, Repr

/-- The literal verification prompt from `researchPlatform`. -/
def verifyPromptText : String :=
  "Please verify the information above is accurate. If any fields show \"Unknown\" or \"Not publicly disclosed\", try harder to find the actual data. Provide your final verified JSON response."

/-- Oracles for the externals of one `researchPlatform` run: the
(retry-wrapped) model calls, and the two uses of `parseJsonResponse`.
`parseGate` models `parseJsonResponse<any>` followed by
`Object.values(initialParsed.infosheet || initialParsed)`: it yields the
values of the object the gate inspects, or `none` when parsing throws.
`parseFinal` models `parseJsonResponse<ResearchResponse>`. -/
structure ResearchOracles where
  call1 : Except String String
  call2 : Except String String
  sonar : Except String (String × List String)
  parseGate : String → Option (List JsVal)
  parseFinal : String → Except String ParsedResearch

/-- Observable outcome of one `researchPlatform` run. -/
structure ResearchRun where
  result : PlatformResearch
  verificationSkipped : Bool
  verifyIssued : Bool
  verifyMessages : List ORMessage
  finalContent : Option String
  networkCalls : Nat
deriving Repr

/-- The degraded record `researchPlatform` returns from its `catch`
block. -/
def failedResearchRecord (platformName nowIso errMsg : String) : PlatformResearch :=
  { name := platformName
    shortDescription := ""
    infosheet :=
      { license := "Research failed", country := "Research failed",
        company := "Research failed", yearEstablished := "Research failed",
        minDeposit := "Research failed", payoutSpeed := "Research failed",
        supportedCurrencies := [], paymentMethods := [],
        dataSource := "Research failed", retrievedAt := nowIso }
    keyFeatures := [], pros := [], cons := []
    rawResearchSummary := "", citations := []
    researchStatus := "error", error := some errMsg }

/-- The default infosheet used when the parsed response lacks one
(`dataSource`/`retrievedAt` are assigned immediately afterwards). -/
def defaultParsedInfosheet : PlatformInfosheet :=
  { license := "Not publicly disclosed", country := "Not publicly disclosed",
    company := "Not publicly disclosed", yearEstablished := "Not publicly disclosed",
    minDeposit := "Not publicly disclosed", payoutSpeed := "Not publicly disclosed",
    supportedCurrencies := [], paymentMethods := [],
    dataSource := "", retrievedAt := "" }

/-- One entry of the `sourceDomains` attribution computation:
`new URL(s.startsWith('http') ? s : 'https://' + s).hostname.replace('www.', '')`,
falling back to the raw string when parsing throws. -/
def sourceDomainEntry (s : String) : String :=
  match urlHostname (if jsStartsWith s "http" then s else "https://" ++ s) with
  | some h => jsReplaceFirst h "www." ""
  | none => s

/-- The `sourceDomains` attribution string: map, unique, first 3, comma
join. -/
def sourceDomainsOf (allSources : List String) : String :=
  joinSep ", " ((dedupFirst (allSources.map sourceDomainEntry)).take 3)

/-- The successful `PlatformResearch` record built at the end of
`researchPlatform`'s `try` block. -/
def completedResearchRecord (platformName nowIso finalContent : String)
    (parsed : ParsedResearch) (citations : List Citation)
    (allSources : List String) : PlatformResearch :=
  let sd := sourceDomainsOf allSources
  let base := parsed.infosheet.getD defaultParsedInfosheet
  { name := platformName
    shortDescription := parsed.shortDescription
    infosheet :=
      { base with
        dataSource := if sd = "" then "Research sources" else sd,
        retrievedAt := nowIso }
    keyFeatures := parsed.keyFeatures, pros := parsed.pros, cons := parsed.cons
    rawResearchSummary := finalContent, citations := citations
    researchStatus := "completed", error := none }

/-- The data-quality gate: skip the verification call when the first
response parses and populates at least 5 fields; a parse failure means no
skip. -/
def gateSkip (o : ResearchOracles) (content : String) : Bool :=
  match o.parseGate content with
  | some vals => decide (5 ≤ countGoodFields vals)
  | none => false

/-- The verification call's message list: the original prompt, the first
response as an assistant turn, then the verification prompt. -/
def verifyMessagesOf (prompt c1 : String) : List ORMessage :=
  [⟨"user", prompt⟩, ⟨"assistant", c1⟩, ⟨"user", verifyPromptText⟩]

/-- Shallow embedding of `researchPlatform` (the research prompt string
is abstracted as `prompt`; `nowIso` models `new Date().toISOString()`). -/
def researchPlatformModel (platformName : String) (model : ResearchModelSel)
    (o : ResearchOracles) (prompt nowIso : String) : ResearchRun :=
  match model with
  | ResearchModelSel.perplexitySonar =>
      match o.sonar with
      | Except.error e =>
          ⟨failedResearchRecord platformName nowIso e, false, false, [], none, 1⟩
      | Except.ok (content, perplexityCitations) =>
          match o.parseFinal content with
          | Except.error e =>
              ⟨failedResearchRecord platformName nowIso e, false, false, [],
               some content, 1⟩
          | Except.ok parsed =>
              let usePerp := 0 < perplexityCitations.length
              let citations :=
                if usePerp then perplexityCitations.map perplexityCitationOfUrl
                else extractCitationsFromSources parsed.sources
              let allSources := if usePerp then perplexityCitations else parsed.sources
              ⟨completedResearchRecord platformName nowIso content parsed citations
                 allSources, false, false, [], some content, 1⟩
  | ResearchModelSel.tongyiDeepResearch =>
      match o.call1 with
      | Except.error e =>
          ⟨failedResearchRecord platformName nowIso e, false, false, [], none, 1⟩
      | Except.ok c1 =>
          if gateSkip o c1 then
            match o.parseFinal c1 with
            | Except.error e =>
                ⟨failedResearchRecord platformName nowIso e, true, false, [],
                 some c1, 1⟩
            | Except.ok parsed =>
                ⟨completedResearchRecord platformName nowIso c1 parsed
                   (extractCitationsFromSources parsed.sources) parsed.sources,
                 true, false, [], some c1, 1⟩
          else
            match o.call2 with
            | Except.error e =>
                ⟨failedResearchRecord platformName nowIso e, false, true,
                 verifyMessagesOf prompt c1, none, 2⟩
            | Except.ok c2 =>
                match o.parseFinal c2 with
                | Except.error e =>
                    ⟨failedResearchRecord platformName nowIso e, false, true,
                     verifyMessagesOf prompt c1, some c2, 2⟩
                | Except.ok parsed =>
                    ⟨completedResearchRecord platformName nowIso c2 parsed
                       (extractCitationsFromSources parsed.sources) parsed.sources,
                     false, true, verifyMessagesOf prompt c1, some c2, 2⟩

/-! ## Research cache, review cache, batch orchestrator, assembler -/

/-- A research-cache entry (`CachedResearch`). -/
structure CachedResearch where
  data : PlatformResearch
  timestamp : Nat
  vertical : Vertical
deriving DecidableEq, Repr

/-- The research cache, keyed by lower-cased platform name (the parsed
contents of the `localStorage` entry, as a JavaScript object: keyed,
insertion-ordered). -/
abbrev ResearchCache := List (String × CachedResearch)

/-- First-match association-list lookup (JavaScript object member
access; keys are unique by construction). -/
def cacheFind : List (String × α) → String → Option α
  | [], _ => none
  | (k2, v) :: t, k => if k2 = k then some v else cacheFind t k

/-- JavaScript object member assignment: replace in place when the key
exists, else append (preserving insertion order). -/
def setKey (m : List (String × α)) (k : String) (v : α) : List (String × α) :=
  if m.any (fun p => p.1 = k) then
    m.map (fun p => if p.1 = k then (k, v) else p)
  else m ++ [(k, v)]

/-- `CACHE_EXPIRY_HOURS` converted to milliseconds: the read-side test
`(now - timestamp)/(1000*60*60) > 24` holds exactly when the age in
milliseconds exceeds this constant. -/
def cacheWindowMs : Nat := 24 * 60 * 60 * 1000

/-- `saveToResearchCache`. -/
def saveToResearchCache (cache : ResearchCache) (now : Nat)
    (platformName : String) (data : PlatformResearch) (v : Vertical) : ResearchCache :=
  setKey cache (jsToLower platformName) ⟨data, now, v⟩

/-- `getFromResearchCache`. -/
def getFromResearchCache (cache : ResearchCache) (now : Nat)
    (platformName : String) (v : Vertical) : Option PlatformResearch :=
  match cacheFind cache (jsToLower platformName) with
  | none => none
  | some cached =>
      if cacheWindowMs < now - cached.timestamp then none
      else if cached.vertical ≠ v then none
      else if cached.data.researchStatus = "error" then none
      else some cached.data

/-- Observable outcome of one `researchAllPlatforms` run: the results in
input order, the final cache, the number of research (network) calls
issued, and the `fromCache` flag passed to the progress callback for each
platform. -/
structure RunOutcome where
  results : List PlatformResearch
  cache : ResearchCache
  networkCalls : Nat
  fromCacheFlags : List Bool
deriving Repr

/-- The loop of `researchAllPlatforms`: `oracle` models
`researchPlatform` (it never throws — claim C5), `clock i` is the
wall-clock time at the `i`-th iteration. -/
def researchAllGo (oracle : String → PlatformResearch) (v : Vertical)
    (clock : Nat → Nat) : Nat → List String → ResearchCache → RunOutcome
  | _, [], c => ⟨[], c, 0, []⟩
  | i, n :: ns, c =>
      let t := clock i
      match getFromResearchCache c t n v with
      | some r =>
          let rest := researchAllGo oracle v clock (i + 1) ns c
          ⟨r :: rest.results, rest.cache, rest.networkCalls,
           true :: rest.fromCacheFlags⟩
      | none =>
          let r := oracle n
          let c2 := saveToResearchCache c t n r v
          let rest := researchAllGo oracle v clock (i + 1) ns c2
          ⟨r :: rest.results, rest.cache, rest.networkCalls + 1,
           false :: rest.fromCacheFlags⟩

/-- `researchAllPlatforms` over a starting cache. -/
def researchAllPlatformsModel (oracle : String → PlatformResearch)
    (v : Vertical) (clock : Nat → Nat) (names : List String)
    (cache : ResearchCache) : RunOutcome :=
  researchAllGo oracle v clock 0 names cache

/-- A review-cache entry (`CachedReviewEntry`). -/
structure CachedReviewEntry where
  platformName : String
  overview : String
  infosheet : PlatformInfosheet
  pros : List String
  cons : List String
  verdict : String
  affiliateUrl : Option String
  citations : List Citation
  timestamp : Nat
  vertical : Vertical
deriving DecidableEq, Repr

/-- The review cache, keyed by lower-cased platform name. -/
abbrev ReviewCache := List (String × CachedReviewEntry)

/-- `getCachedReviews`: all not-expired, vertical-matching review
entries (`Object.values` order). -/
def getCachedReviews (cache : ReviewCache) (now : Nat) (v : Vertical) :
    List CachedReviewEntry :=
  (cache.map Prod.snd).filter
    (fun c => decide (now - c.timestamp ≤ cacheWindowMs) && decide (c.vertical = v))

/-- Skip over the first `>` (the regex `<[^>]*>` needs a closing `>`). -/
def afterGtChar : List Char → Option (List Char)
  | [] => none
  | c :: t => if c = '>' then some t else afterGtChar t

/-- `overview.replace(/<[^>]*>/g, '')`: drop every `<...>` tag.  `fuel`
bounds recursion; each step consumes at least one character, so
`fuel = l.length` suffices. -/
def stripTagsFuel : Nat → List Char → List Char
  | 0, l => l
  | _, [] => []
  | fuel + 1, c :: t =>
      if c = '<' then
        match afterGtChar t with
        | some r => stripTagsFuel fuel r
        | none => c :: t
      else c :: stripTagsFuel fuel t

/-- Strip HTML tags, as in the assembler's quick-list construction. -/
def stripTags (s : String) : String :=
  String.mk (stripTagsFuel s.data.length s.data)

/-- One entry of `generateBatchRatings`' response. -/
structure BatchRating where
  platformName : String
  ratings : List RatingCategory
deriving DecidableEq, Repr

/-- The configuration fields `assembleArticleFromCache` consults. -/
structure AssembleConfigModel where
  vertical : Vertical
  includeRatings : Bool
  includeComparisonTable : Bool
  includeFaqs : Bool
  platforms : List PlatformInput
deriving Repr

/-- Oracles for the assembler's model calls (each issued at most once). -/
structure AssembleOracles where
  batchRatings : List BatchRating
  intro : String
  comparison : List ComparisonTableRow
  faqs : List FAQ
  seo : SeoMetadata

/-- JavaScript `a || b` over optional strings (`''` is falsy). -/
def jsOrOpt (a b : Option String) : Option String :=
  match a with
  | some s => if s = "" then b else some s
  | none => b

/-- Step 2 of the assembler: rebuild one `PlatformReview` from a cached
entry, the batch ratings, and the configuration's affiliate override. -/
def buildPlatformReview (cfg : AssembleConfigModel) (batch : List BatchRating)
    (cached : CachedReviewEntry) : PlatformReview :=
  let ratings :=
    ((batch.find? (fun r => jsToLower r.platformName = jsToLower cached.platformName)).map
      BatchRating.ratings).getD []
  let platformInput :=
    cfg.platforms.find? (fun p => jsToLower p.name = jsToLower cached.platformName)
  { platformName := cached.platformName, overview := cached.overview,
    infosheet := cached.infosheet, ratings := ratings,
    pros := cached.pros, cons := cached.cons, verdict := cached.verdict,
    affiliateUrl := jsOrOpt (platformInput.bind PlatformInput.affiliateUrl)
      cached.affiliateUrl,
    citations := cached.citations }

/-- Observable outcome of `assembleArticleFromCache`: the returned
article (or `null`) and the number of generation (model) calls issued. -/
structure AssembleOutcome where
  article : Option GeneratedArticle
  modelCalls : Nat
deriving Repr

/-- Shallow embedding of `assembleArticleFromCache`. -/
def assembleArticleFromCacheModel (cfg : AssembleConfigModel)
    (reviewCache : ReviewCache) (researchCache : ResearchCache) (now : Nat)
    (o : AssembleOracles) : AssembleOutcome :=
  let cachedReviews := getCachedReviews reviewCache now cfg.vertical
  if cachedReviews.length < 3 then ⟨none, 0⟩
  else
    let allCitations := (cachedReviews.map CachedReviewEntry.citations).flatten
    let platformResearch := cachedReviews.filterMap
      (fun r => getFromResearchCache researchCache now r.platformName cfg.vertical)
    let dedupedCitations := deduplicateCitations allCitations
    let ratingsCalls := if cfg.includeRatings then 1 else 0
    let batch := if cfg.includeRatings then o.batchRatings else []
    let platformReviews := cachedReviews.map (buildPlatformReview cfg batch)
    let quickList := cachedReviews.map
      (fun r => (r.platformName, stringTake (stripTags r.overview) 150 ++ "..."))
    let doComparison := cfg.includeComparisonTable && 0 < platformResearch.length
    let doFaqs := cfg.includeFaqs && 0 < platformResearch.length
    let doSeo := 0 < platformResearch.length
    ⟨some
      { intro := o.intro, platformQuickList := quickList,
        comparisonTable := if doComparison then o.comparison else [],
        platformReviews := platformReviews, additionalSections := [],
        faqs := if doFaqs then o.faqs else [],
        allCitations := dedupedCitations,
        seoMetadata := if doSeo then some o.seo else none },
     ratingsCalls + 1 + (if doComparison then 1 else 0) +
       (if doFaqs then 1 else 0) + (if doSeo then 1 else 0)⟩

/-! ## Content generators: comparison table and review pros/cons -/

/-- `hasValidResearchData` from the service. -/
def hasValidResearchData (research : PlatformResearch) : Bool :=
  let info := research.infosheet
  let hasLicense := decide (info.license ≠ "") && decide (info.license ≠ "Unknown") &&
    decide (info.license ≠ "N/A")
  let hasDeposit := decide (info.minDeposit ≠ "") && decide (info.minDeposit ≠ "Unknown") &&
    decide (info.minDeposit ≠ "N/A")
  let hasPayout := decide (info.payoutSpeed ≠ "") && decide (info.payoutSpeed ≠ "Unknown") &&
    decide (info.payoutSpeed ≠ "N/A")
  let hasCitations := decide (0 < research.citations.length)
  (hasLicense && hasDeposit) || (hasLicense && hasPayout) || hasCitations

/-- `getNoDataMessage` from the service. -/
def noDataMessage : String := "⚠️ Research data not available - requires manual review"

/-- The infosheet as the JavaScript object entries the generators
iterate over. -/
def infosheetEntries (i : PlatformInfosheet) : List (String × JsVal) :=
  [("license", JsVal.str i.license), ("country", JsVal.str i.country),
   ("company", JsVal.str i.company), ("yearEstablished", JsVal.str i.yearEstablished),
   ("minDeposit", JsVal.str i.minDeposit), ("payoutSpeed", JsVal.str i.payoutSpeed),
   ("supportedCurrencies", JsVal.arr i.supportedCurrencies),
   ("paymentMethods", JsVal.arr i.paymentMethods),
   ("dataSource", JsVal.str i.dataSource), ("retrievedAt", JsVal.str i.retrievedAt)]

/-- One row of the `researchData` payload that `generateComparisonTable`
sends to the model. -/
structure ComparisonPayloadRow where
  name : String
  hasResearchData : Bool
  fields : List (String × JsVal)
  keyStrengths : String
  keyWeaknesses : String
deriving DecidableEq, Repr

/-- `generateComparisonTable`'s `researchData` construction for one
platform: drop `dataSource`/`retrievedAt`, substitute the warning
sentinel for missing data, and summarize pros/cons. -/
def comparisonPayloadRowOf (p : PlatformResearch) : ComparisonPayloadRow :=
  let hasData := hasValidResearchData p
  { name := p.name
    hasResearchData := hasData
    fields :=
      ((infosheetEntries p.infosheet).filter
        (fun kv => decide (kv.1 ≠ "dataSource") && decide (kv.1 ≠ "retrievedAt"))).map
        (fun kv =>
          (kv.1,
           if hasData then (if jsTruthy kv.2 then kv.2 else JsVal.str noDataMessage)
           else JsVal.str noDataMessage))
    keyStrengths :=
      if hasData then joinSep ", " (p.pros.take 3) else noDataMessage
    keyWeaknesses :=
      if hasData then joinSep ", " (p.cons.take 2) else noDataMessage }

/-- The comparison response parsed from the writing model's output. -/
structure ParsedComparison where
  chosenColumns : List String
  rows : List ComparisonTableRow
deriving DecidableEq, Repr

/-- Observable outcome of `generateComparisonTable`: the payload sent to
the model and the returned rows. -/
structure ComparisonCall where
  payload : List ComparisonPayloadRow
  rows : List ComparisonTableRow
deriving Repr

/-- Shallow embedding of `generateComparisonTable`: build the payload,
issue one model call (response abstracted as `parsed`), and return
`parsed.rows` unchanged. -/
def generateComparisonTableModel (research : List PlatformResearch)
    (parsed : ParsedComparison) : ComparisonCall :=
  ⟨research.map comparisonPayloadRowOf, parsed.rows⟩

/-- The star-rating breakpoint mapping stated by the specification
(`≥9.0→5★, ≥7.5→4★, ≥6.0→3★, ≥4.5→2★, else 1★`).  This function is
derived from the spec's words, not from the code: the service has no
such computation, and this definition exists to compare the spec's claim
with the implementation. -/
def specStarCount (avg : ℚ) : Nat :=
  if 9 ≤ avg then 5
  else if 15 / 2 ≤ avg then 4
  else if 6 ≤ avg then 3
  else if 9 / 2 ≤ avg then 2
  else 1

/-- A star rating rendered as the glyph strings the prompt enumerates. -/
def starGlyphs (n : Nat) : String :=
  String.join (List.replicate n "⭐")

/-- Every rating value the claimed breakpoint mapping can produce,
together with the no-data sentinel `"N/A"`. -/
def specStarStrings : List String :=
  ["⭐", "⭐⭐", "⭐⭐⭐", "⭐⭐⭐⭐", "⭐⭐⭐⭐⭐", "N/A"]

/-- `hasValue` from `buildFallbackProsFromInfosheet`. -/
def hasValueStr (v : String) : Bool :=
  let s := jsTrim v
  decide (s ≠ "") && decide (jsToLower s ≠ "unknown") &&
  decide (jsToLower s ≠ "not publicly disclosed") &&
  decide (jsToLower s ≠ "research failed")

/-- The per-language phrase selector `t` from
`buildFallbackProsFromInfosheet`. -/
def tPick (lang : JsLanguage) (en th vi ja ko : String) : String :=
  match lang with
  | JsLanguage.thai => th
  | JsLanguage.vietnamese => vi
  | JsLanguage.japanese => ja
  | JsLanguage.korean => ko
  | JsLanguage.english => en

/-- `buildFallbackProsFromInfosheet` from the service. -/
def buildFallbackProsFromInfosheet (research : PlatformResearch)
    (lang : JsLanguage) : List String :=
  let info := research.infosheet
  let pay := joinSep ", " (info.paymentMethods.take 3)
  let cur := joinSep ", " (info.supportedCurrencies.take 3)
  (if hasValueStr info.license then
    [tPick lang ("Licensed by " ++ info.license ++ ".")
      ("ได้รับใบอนุญาตจาก " ++ info.license ++ ".")
      ("Được cấp phép bởi " ++ info.license ++ ".")
      (info.license ++ " のライセンスを取得しています。")
      (info.license ++ " 라이선스를 보유하고 있습니다.")]
   else []) ++
  (if 0 < info.paymentMethods.length then
    [tPick lang ("Supports multiple payment methods (e.g., " ++ pay ++ ").")
      ("รองรับวิธีชำระเงินหลายรูปแบบ (เช่น " ++ pay ++ ").")
      ("Hỗ trợ nhiều phương thức thanh toán (ví dụ: " ++ pay ++ ").")
      ("複数の決済方法に対応（例：" ++ pay ++ "）。")
      ("여러 결제 수단을 지원합니다(예: " ++ pay ++ ").")]
   else []) ++
  (if 0 < info.supportedCurrencies.length then
    [tPick lang ("Supports several currencies (e.g., " ++ cur ++ ").")
      ("รองรับหลายสกุลเงิน (เช่น " ++ cur ++ ").")
      ("Hỗ trợ nhiều loại tiền tệ (ví dụ: " ++ cur ++ ").")
      ("複数通貨に対応（例：" ++ cur ++ "）。")
      ("여러 통화를 지원합니다(예: " ++ cur ++ ").")]
   else []) ++
  (if hasValueStr info.payoutSpeed then
    [tPick lang ("Clear payout timeframe: " ++ info.payoutSpeed ++ ".")
      ("มีกรอบเวลาการถอนที่ชัดเจน: " ++ info.payoutSpeed ++ ".")
      ("Thời gian rút tiền rõ ràng: " ++ info.payoutSpeed ++ ".")
      ("出金目安が明確：" ++ info.payoutSpeed ++ "。")
      ("출금 소요 시간이 비교적 명확합니다: " ++ info.payoutSpeed ++ ".")]
   else [])

/-- The pros/cons post-processing of `generatePlatformReview` (the
`includeProsCons` branch): `parsedPros`/`parsedCons` are the model
output's lists (already Array-checked, `[]` for a missing member). -/
def reviewProsCons (parsedPros parsedCons : List String)
    (research : PlatformResearch) (lang : JsLanguage) :
    List String × List String :=
  let fallbackPros := research.pros
  let fallbackProsFromFeatures := research.keyFeatures.filter (fun f => f ≠ "")
  let fallbackProsFromInfosheet := buildFallbackProsFromInfosheet research lang
  let safePros :=
    if 0 < parsedPros.length then parsedPros
    else if 0 < fallbackPros.length then fallbackPros
    else if 0 < fallbackProsFromFeatures.length then fallbackProsFromFeatures.take 3
    else fallbackProsFromInfosheet
  let safeCons :=
    if parsedCons.length < safePros.length then parsedCons
    else parsedCons.take (safePros.length - 1)
  (safePros, safeCons)

/-! ## Spec-side definitions and concrete fixtures -/

/-- The transient markers enumerated by the specification's retry claim
(`'503'`, `'overloaded'`, `'unavailable'`, `'rate limit'`,
connection-reset variants, `'protocol error'`, `'networkerror'`,
`'failed to fetch'`).  Derived from the claim's words, for comparison
with the implementation's `isRetryableMsg`: the code additionally treats
`'incomplete envelope'` as transient. -/
def claimTransientMarkersLower : List String :=
  ["overloaded", "unavailable", "rate limit", "econnreset",
   "connection reset", "protocol error", "networkerror", "failed to fetch"]

/-- The claim's transient classification. -/
def claimTransientMsg (msg : String) : Bool :=
  strContains msg "503" ||
  claimTransientMarkersLower.any (fun m => strContains (jsToLower msg) m)

/-- A fully-populated infosheet for concrete runs. -/
def demoInfosheet : PlatformInfosheet :=
  { license := "MGA", country := "Malta", company := "Acme Ltd",
    yearEstablished := "2015", minDeposit := "$10", payoutSpeed := "24 hours",
    supportedCurrencies := ["USD", "EUR"], paymentMethods := ["Visa", "Skrill"],
    dataSource := "a.com", retrievedAt := "2025-01-01T00:00:00.000Z" }

/-- A concrete citation. -/
def demoCitationA : Citation :=
  { title := "https://a.com/review", sourceUrl := "https://a.com/review",
    googleSearchUrl := "https://www.google.com/search?q=a", domain := "a.com" }

/-- A second concrete citation. -/
def demoCitationB : Citation :=
  { title := "https://b.org/report", sourceUrl := "https://b.org/report",
    googleSearchUrl := "https://www.google.com/search?q=b", domain := "b.org" }

/-- A completed research record for concrete runs. -/
def demoResearch : PlatformResearch :=
  { name := "Acme", shortDescription := "A demo platform.",
    infosheet := demoInfosheet,
    keyFeatures := ["Live betting", "Mobile app", "Daily promos", "VIP club"],
    pros := ["Fast payouts", "Good support"],
    cons := ["High fees", "Limited markets", "No live chat"],
    rawResearchSummary := "raw", citations := [demoCitationA],
    researchStatus := "completed", error := none }

/-- A research record with no usable data (`hasValidResearchData` is
false). -/
def demoResearchNoData : PlatformResearch :=
  { name := "Ghost", shortDescription := "",
    infosheet :=
      { license := "Unknown", country := "Unknown", company := "Unknown",
        yearEstablished := "Unknown", minDeposit := "Unknown",
        payoutSpeed := "Unknown", supportedCurrencies := [],
        paymentMethods := [], dataSource := "", retrievedAt := "" },
    keyFeatures := [], pros := [], cons := [], rawResearchSummary := "",
    citations := [], researchStatus := "completed", error := none }

/-- An oracle under which every platform's research fails. -/
def demoErrOracle : String → PlatformResearch :=
  fun name => failedResearchRecord name "2025-01-01T00:00:00.000Z" "boom"

/-- An oracle returning a fixed successful record per platform. -/
def demoOkOracle : String → PlatformResearch :=
  fun name => { demoResearch with name := name }

/-- Research oracles whose first model call fails. -/
def demoFailOracles : ResearchOracles :=
  { call1 := Except.error "network down", call2 := Except.error "network down",
    sonar := Except.error "network down", parseGate := fun _ => none,
    parseFinal := fun _ => Except.error "Invalid JSON format" }

/-- Gate values with five populated fields. -/
def demoGateVals : List JsVal :=
  [JsVal.str "MGA", JsVal.str "Malta", JsVal.str "Acme Ltd",
   JsVal.str "2015", JsVal.str "$10"]

/-- A parsed research response for concrete runs. -/
def demoParsed : ParsedResearch :=
  { shortDescription := "A demo platform.", infosheet := some demoInfosheet,
    keyFeatures := ["F1"], pros := ["P1"], cons := ["C1"],
    sources := ["https://a.com/review"] }

/-- Oracles whose first response passes the data-quality gate. -/
def demoSkipOracles : ResearchOracles :=
  { call1 := Except.ok "FIRST", call2 := Except.ok "SECOND",
    sonar := Except.error "n/a", parseGate := fun _ => some demoGateVals,
    parseFinal := fun _ => Except.ok demoParsed }

/-- Oracles whose first response fails the data-quality gate (every
field a placeholder). -/
def demoNoSkipOracles : ResearchOracles :=
  { call1 := Except.ok "FIRST", call2 := Except.ok "SECOND",
    sonar := Except.error "n/a",
    parseGate := fun _ => some [JsVal.str "Unknown", JsVal.str "", JsVal.str "Not publicly disclosed"],
    parseFinal := fun _ => Except.ok demoParsed }

/-- Oracles for a Perplexity run returning one unparseable citation URL. -/
def demoSonarBadOracles : ResearchOracles :=
  { call1 := Except.error "n/a", call2 := Except.error "n/a",
    sonar := Except.ok ("CONTENT", ["www.foo"]), parseGate := fun _ => none,
    parseFinal := fun _ => Except.ok demoParsed }

/-- A cached review entry for the assembler, per platform name. -/
def demoReviewEntry (n : String) : CachedReviewEntry :=
  { platformName := n, overview := "<p>Overview of " ++ n ++ ".</p>",
    infosheet := demoInfosheet, pros := ["Pro"], cons := [],
    verdict := "<p>Verdict.</p>", affiliateUrl := none,
    citations := [demoCitationA], timestamp := 0, vertical := Vertical.gambling }

/-- A review cache holding three entries. -/
def demoReviewCache3 : ReviewCache :=
  [("alpha", demoReviewEntry "Alpha"), ("bravo", demoReviewEntry "Bravo"),
   ("charlie", demoReviewEntry "Charlie")]

/-- A review cache holding two entries. -/
def demoReviewCache2 : ReviewCache :=
  [("alpha", demoReviewEntry "Alpha"), ("bravo", demoReviewEntry "Bravo")]

/-- Concrete SEO metadata. -/
def demoSeo : SeoMetadata :=
  { title := "T", metaDescription := "D", slug := "s", imagePrompt := "i",
    imageAltText := "alt" }

/-- Concrete assembler oracles. -/
def demoAssembleOracles : AssembleOracles :=
  { batchRatings := [], intro := "<p>Intro.</p>", comparison := [],
    faqs := [], seo := demoSeo }

/-- Concrete assembler configuration. -/
def demoAssembleConfig : AssembleConfigModel :=
  { vertical := Vertical.gambling, includeRatings := true,
    includeComparisonTable := true, includeFaqs := true, platforms := [] }

/-- A comparison response rating "Acme" one star. -/
def demoComparisonA : ParsedComparison :=
  ⟨["license"], [⟨"Acme", "MGA", "$10", "24 hours", "⭐"⟩]⟩

/-- A comparison response whose rating is not a star string at all. -/
def demoComparisonB : ParsedComparison :=
  ⟨["license"], [⟨"Acme", "MGA", "$10", "24 hours", "totally-not-a-star-rating"⟩]⟩

/-- `demoResearch` with its research pros emptied (key features remain). -/
def demoResearchNoPros : PlatformResearch :=
  { demoResearch with pros := [] }

/-- The degraded-record shape of `researchPlatform`'s catch block: status
`'error'`, every string infosheet field the `'Research failed'` sentinel,
empty lists, and `retrievedAt` stamped with the current time. -/
def degradedSentinel (platformName nowIso : String) (r : PlatformResearch) : Prop :=
  r.name = platformName ∧ r.researchStatus = "error" ∧
  r.infosheet.license = "Research failed" ∧
  r.infosheet.country = "Research failed" ∧
  r.infosheet.company = "Research failed" ∧
  r.infosheet.yearEstablished = "Research failed" ∧
  r.infosheet.minDeposit = "Research failed" ∧
  r.infosheet.payoutSpeed = "Research failed" ∧
  r.infosheet.dataSource = "Research failed" ∧
  r.infosheet.supportedCurrencies = [] ∧
  r.infosheet.paymentMethods = [] ∧
  r.infosheet.retrievedAt = nowIso ∧
  r.keyFeatures = [] ∧ r.pros = [] ∧ r.cons = [] ∧ r.citations = []


/-! ## Theorems -/

theorem withRetryGo_calls_le (behavior : Nat → Except String α) (D : ℚ) :
    ∀ (rem attempt : Nat), (withRetryGo behavior D attempt rem).calls ≤ rem + 1 := by
  intro rem
  induction rem with
  | zero =>
      intro attempt
      unfold withRetryGo
      cases behavior attempt with
      | ok v => simp
      | error msg =>
          by_cases hr : isRetryableMsg msg = false <;> simp [hr]
  | succ r ih =>
      intro attempt
      unfold withRetryGo
      cases behavior attempt with
      | ok v => simp
      | error msg =>
          by_cases hr : isRetryableMsg msg = false
          · simp [hr]
          · simp only [hr, if_false]
            simpa using Nat.succ_le_succ (ih (attempt + 1))

theorem withRetryGo_const_error (α : Type) (msg : String)
    (hr : isRetryableMsg msg = true) (D : ℚ) :
    ∀ (rem attempt : Nat),
      (withRetryGo (α := α) (fun _ => Except.error msg) D attempt rem).calls = rem + 1 ∧
      (withRetryGo (α := α) (fun _ => Except.error msg) D attempt rem).sleeps.length = rem ∧
      (withRetryGo (α := α) (fun _ => Except.error msg) D attempt rem).result =
        Except.error msg := by
  intro rem
  induction rem with
  | zero =>
      intro attempt
      unfold withRetryGo
      simp [hr]
  | succ r ih =>
      intro attempt
      unfold withRetryGo
      simp only [hr, Bool.true_eq_false, if_false]
      exact ⟨by simp [(ih (attempt + 1)).1], by simp [(ih (attempt + 1)).2.1],
        (ih (attempt + 1)).2.2⟩

/-- C1 (amended): `withRetry`'s policy.  A non-transient error (per the
implementation's marker set, which also includes `'incomplete envelope'`)
propagates immediately with one invocation and no sleep; an exhausted
budget propagates immediately; a transient error with remaining budget
sleeps `min(baseDelay * m^attempt, 60000)` — `m = 2.5` for 503/overload
messages, `2` otherwise — and retries; the operation is invoked at most
`maxRetries + 1` times; a constantly-503 operation is invoked exactly
`maxRetries + 1` times; and an `'invalid_api_key'` error propagates
immediately without sleeping. -/
theorem withRetry_transient_policy :
    (∀ (α : Type) (behavior : Nat → Except String α) (D : ℚ)
        (attempt rem : Nat) (msg : String),
        behavior attempt = Except.error msg → isRetryableMsg msg = false →
        withRetryGo behavior D attempt rem = ⟨Except.error msg, [], 1⟩) ∧
    (∀ (α : Type) (behavior : Nat → Except String α) (D : ℚ)
        (attempt : Nat) (msg : String),
        behavior attempt = Except.error msg →
        withRetryGo behavior D attempt 0 = ⟨Except.error msg, [], 1⟩) ∧
    (∀ (α : Type) (behavior : Nat → Except String α) (D : ℚ)
        (attempt rem : Nat) (msg : String),
        behavior attempt = Except.error msg → isRetryableMsg msg = true →
        withRetryGo behavior D attempt (rem + 1) =
          ⟨(withRetryGo behavior D (attempt + 1) rem).result,
           retryDelayMs D msg attempt ::
             (withRetryGo behavior D (attempt + 1) rem).sleeps,
           (withRetryGo behavior D (attempt + 1) rem).calls + 1⟩) ∧
    (∀ (D : ℚ) (msg : String) (attempt : Nat),
        retryDelayMs D msg attempt =
          min (D * (if is503Msg msg then (5 : ℚ) / 2 else 2) ^ attempt) 60000) ∧
    (∀ (α : Type) (behavior : Nat → Except String α) (R : Nat) (D : ℚ),
        (withRetryModel behavior R D).calls ≤ R + 1) ∧
    (∀ (R : Nat) (D : ℚ),
        (withRetryModel (α := Unit) (fun _ => Except.error "HTTP 503") R D).calls =
          R + 1) ∧
    (∀ (R : Nat) (D : ℚ),
        withRetryModel (α := Unit) (fun _ => Except.error "invalid_api_key") R D =
          ⟨Except.error "invalid_api_key", [], 1⟩) := by
  refine ⟨?_, ?_, ?_, ?_, ?_, ?_, ?_⟩
  · intro α behavior D attempt rem msg hbeh hret
    unfold withRetryGo
    simp [hbeh, hret]
  · intro α behavior D attempt msg hbeh
    unfold withRetryGo
    by_cases hr : isRetryableMsg msg = false <;> simp [hbeh, hr]
  · intro α behavior D attempt rem msg hbeh hret
    conv_lhs => rw [withRetryGo]
    simp [hbeh, hret]
  · intro D msg attempt
    simp [retryDelayMs, backoffMultiplier]
  · intro α behavior R D
    exact withRetryGo_calls_le behavior D R 0
  · intro R D
    exact (withRetryGo_const_error Unit "HTTP 503" (by decide) D R 0).1
  · intro R D
    have hk : isRetryableMsg "invalid_api_key" = false := by decide
    unfold withRetryModel
    conv_lhs => rw [withRetryGo]
    simp [hk]

/-- Witness for C1: the policy theorem applied at concrete inputs
(immediate propagation of `invalid_api_key`, exhausted budget, and a
transient 503 step). -/
theorem withRetry_transient_policy_witness :
    (withRetryGo (α := Unit) (fun _ => Except.error "invalid_api_key") 5000 0 6 =
      ⟨Except.error "invalid_api_key", [], 1⟩) ∧
    (withRetryGo (α := Unit) (fun _ => Except.error "rate limit hit") 5000 4 0 =
      ⟨Except.error "rate limit hit", [], 1⟩) ∧
    (withRetryGo (α := Unit) (fun _ => Except.error "HTTP 503") 5000 0 3 =
      ⟨(withRetryGo (α := Unit) (fun _ => Except.error "HTTP 503") 5000 1 2).result,
       retryDelayMs 5000 "HTTP 503" 0 ::
         (withRetryGo (α := Unit) (fun _ => Except.error "HTTP 503") 5000 1 2).sleeps,
       (withRetryGo (α := Unit) (fun _ => Except.error "HTTP 503") 5000 1 2).calls + 1⟩) :=
  ⟨withRetry_transient_policy.1 Unit _ 5000 0 6 "invalid_api_key" rfl (by decide),
   withRetry_transient_policy.2.1 Unit _ 5000 4 "rate limit hit" rfl,
   withRetry_transient_policy.2.2.1 Unit _ 5000 0 2 "HTTP 503" rfl (by decide)⟩

/-- C1 counterexample: the message `'incomplete envelope'` is not in the
claim's transient-marker list, so the claim requires immediate
propagation with no sleep; the implementation classifies it transient
and sleeps and retries through the whole budget (7 invocations, 6
sleeps, for `maxRetries = 6`). -/
theorem withRetry_claim_marker_cx :
    claimTransientMsg "incomplete envelope" = false ∧
    (withRetryModel (α := Unit)
      (fun _ => Except.error "incomplete envelope") 6 5000).calls = 7 ∧
    (withRetryModel (α := Unit)
      (fun _ => Except.error "incomplete envelope") 6 5000).sleeps.length = 6 :=
  ⟨by decide, by decide, by decide⟩

/-- C2: a Research-Cache read hits exactly when an entry exists under
the lower-cased platform name, its age is within the 24-hour window, its
stored vertical matches, and its stored status is not `'error'`; in every
other case the read returns `null`. -/
theorem researchCache_hit_iff :
    ∀ (cache : ResearchCache) (now : Nat) (name : String) (v : Vertical)
      (d : PlatformResearch),
      getFromResearchCache cache now name v = some d ↔
        ∃ e, cacheFind cache (jsToLower name) = some e ∧
          now - e.timestamp ≤ cacheWindowMs ∧
          e.vertical = v ∧
          e.data.researchStatus ≠ "error" ∧
          d = e.data := by
  intro cache now name v d
  unfold getFromResearchCache
  cases h : cacheFind cache (jsToLower name) with
  | none => simp [h]
  | some e =>
      simp only [h, Option.some.injEq]
      split_ifs with h1 h2 h3
      · constructor
        · intro hx; simp at hx
        · rintro ⟨e2, he2, hage, _⟩; subst he2; omega
      · constructor
        · intro hx; simp at hx
        · rintro ⟨e2, he2, _, hv, _⟩; subst he2; exact absurd hv h2
      · constructor
        · intro hx; simp at hx
        · rintro ⟨e2, he2, _, _, hs, _⟩; subst he2; exact absurd h3 hs
      · constructor
        · intro hx
          have hdx := Option.some.inj hx
          exact ⟨e, rfl, by omega, by simpa using h2, h3, hdx.symm⟩
        · rintro ⟨e2, he2, _, _, _, hd⟩; subst he2; rw [hd]

/-- C4: `assembleArticleFromCache` returns `null` (with no generation
call) whenever fewer than 3 non-expired, vertical-matching review
entries exist, and with exactly 3 such entries returns a non-null
article whose `platformReviews` has length 3. -/
theorem assemble_gate :
    ∀ (cfg : AssembleConfigModel) (reviewCache : ReviewCache)
      (researchCache : ResearchCache) (now : Nat) (o : AssembleOracles),
      ((getCachedReviews reviewCache now cfg.vertical).length < 3 →
        assembleArticleFromCacheModel cfg reviewCache researchCache now o =
          ⟨none, 0⟩) ∧
      ((getCachedReviews reviewCache now cfg.vertical).length = 3 →
        ∃ a,
          (assembleArticleFromCacheModel cfg reviewCache researchCache now o).article =
            some a ∧
          a.platformReviews.length = 3) := by
  intro cfg reviewCache researchCache now o
  constructor
  · intro hlt
    unfold assembleArticleFromCacheModel
    simp [hlt]
  · intro h3
    have hge : ¬ (getCachedReviews reviewCache now cfg.vertical).length < 3 := by
      omega
    unfold assembleArticleFromCacheModel
    simp only [hge, if_false]
    exact ⟨_, rfl, by simp [h3]⟩

/-- Witness for C4: a 2-entry review cache yields `null` with zero
generation calls; a 3-entry cache yields an article with 3 reviews. -/
theorem assemble_gate_witness :
    (assembleArticleFromCacheModel demoAssembleConfig demoReviewCache2 [] 0
      demoAssembleOracles = ⟨none, 0⟩) ∧
    ∃ a,
      (assembleArticleFromCacheModel demoAssembleConfig demoReviewCache3 [] 0
        demoAssembleOracles).article = some a ∧
      a.platformReviews.length = 3 :=
  ⟨(assemble_gate demoAssembleConfig demoReviewCache2 [] 0 demoAssembleOracles).1
      (by decide),
   (assemble_gate demoAssembleConfig demoReviewCache3 [] 0 demoAssembleOracles).2
      (by decide)⟩

theorem researchAllGo_results_length (oracle : String → PlatformResearch)
    (v : Vertical) (clock : Nat → Nat) :
    ∀ (names : List String) (i : Nat) (c : ResearchCache),
      (researchAllGo oracle v clock i names c).results.length = names.length := by
  intro names
  induction names with
  | nil => intro i c; rfl
  | cons n ns ih =>
      intro i c
      unfold researchAllGo
      cases h : getFromResearchCache c (clock i) n v <;> simp [h, ih]

/-- C5 (amended): `researchPlatform` is total — for every model
selection and every outcome of the external calls and parses it returns
a well-typed `PlatformResearch` carrying the requested name, either with
status `'completed'`, or with status `'error'`, the `'Research failed'`
sentinel in every string infosheet field, empty arrays, and
`retrievedAt` stamped with the current time; and the batch orchestrator
always returns one record per requested platform. -/
theorem research_never_throws :
    (∀ (platformName : String) (model : ResearchModelSel) (o : ResearchOracles)
        (prompt nowIso : String),
        (researchPlatformModel platformName model o prompt nowIso).result.name =
          platformName ∧
        ((researchPlatformModel platformName model o prompt nowIso).result.researchStatus =
            "completed" ∨
          degradedSentinel platformName nowIso
            (researchPlatformModel platformName model o prompt nowIso).result)) ∧
    (∀ (oracle : String → PlatformResearch) (v : Vertical) (clock : Nat → Nat)
        (names : List String) (cache : ResearchCache),
        (researchAllPlatformsModel oracle v clock names cache).results.length =
          names.length) := by
  constructor
  · intro platformName model o prompt nowIso
    cases model with
    | perplexitySonar =>
        cases hs : o.sonar with
        | error e =>
            simp [researchPlatformModel, hs, failedResearchRecord, degradedSentinel]
        | ok pair =>
            cases hp : o.parseFinal pair.1 with
            | error e =>
                simp [researchPlatformModel, hs, hp, failedResearchRecord,
                  degradedSentinel]
            | ok parsed =>
                simp [researchPlatformModel, hs, hp, completedResearchRecord]
    | tongyiDeepResearch =>
        cases hc : o.call1 with
        | error e =>
            simp [researchPlatformModel, hc, failedResearchRecord, degradedSentinel]
        | ok c1 =>
            by_cases hg : gateSkip o c1
            · cases hp : o.parseFinal c1 with
              | error e =>
                  simp [researchPlatformModel, hc, hg, hp, failedResearchRecord,
                    degradedSentinel]
              | ok parsed =>
                  simp [researchPlatformModel, hc, hg, hp, completedResearchRecord]
            · cases hc2 : o.call2 with
              | error e =>
                  simp [researchPlatformModel, hc, hg, hc2, failedResearchRecord,
                    degradedSentinel]
              | ok c2 =>
                  cases hp : o.parseFinal c2 with
                  | error e =>
                      simp [researchPlatformModel, hc, hg, hc2, hp,
                        failedResearchRecord, degradedSentinel]
                  | ok parsed =>
                      simp [researchPlatformModel, hc, hg, hc2, hp,
                        completedResearchRecord]
  · intro oracle v clock names cache
    exact researchAllGo_results_length oracle v clock names 0 cache

/-- C5 counterexample: on an unrecoverable failure the degraded record's
`retrievedAt` infosheet field holds the current timestamp, not an
explicit failure sentinel (and the array fields are plain empty arrays),
so not *every* infosheet field is set to a failure sentinel. -/
theorem research_sentinel_cx :
    (researchPlatformModel "Acme" ResearchModelSel.tongyiDeepResearch
      demoFailOracles "PROMPT" "2025-01-01T00:00:00.000Z").result.researchStatus =
        "error" ∧
    (researchPlatformModel "Acme" ResearchModelSel.tongyiDeepResearch
      demoFailOracles "PROMPT" "2025-01-01T00:00:00.000Z").result.infosheet.retrievedAt =
        "2025-01-01T00:00:00.000Z" ∧
    (researchPlatformModel "Acme" ResearchModelSel.tongyiDeepResearch
      demoFailOracles "PROMPT" "2025-01-01T00:00:00.000Z").result.infosheet.retrievedAt ≠
        "Research failed" ∧
    (researchPlatformModel "Acme" ResearchModelSel.tongyiDeepResearch
      demoFailOracles "PROMPT" "2025-01-01T00:00:00.000Z").result.infosheet.supportedCurrencies =
        [] :=
  ⟨by decide, by decide, by decide, by decide⟩

/-- C6 (amended): `generateComparisonTable` computes no star rating at
all — it returns the model response's rows verbatim, whatever their
`rating` fields hold — and a platform lacking valid research data is
only marked in the *payload* sent to the model (every data field
replaced by the warning sentinel), with `"N/A"` merely requested from
the model in the prompt. -/
theorem comparison_rating_passthrough :
    ∀ (research : List PlatformResearch) (parsed : ParsedComparison),
      (generateComparisonTableModel research parsed).rows = parsed.rows ∧
      (∀ p ∈ research, hasValidResearchData p = false →
        ∀ kv ∈ (comparisonPayloadRowOf p).fields, kv.2 = JsVal.str noDataMessage) := by
  intro research parsed
  refine ⟨rfl, ?_⟩
  intro p _ hv kv hkv
  simp only [comparisonPayloadRowOf, hv, Bool.false_eq_true, if_false,
    List.mem_map] at hkv
  obtain ⟨a, _, h2⟩ := hkv
  rw [← h2]

/-- Witness for C6: the pass-through and the no-data payload marking at
concrete inputs. -/
theorem comparison_rating_passthrough_witness :
    (generateComparisonTableModel [demoResearchNoData] demoComparisonA).rows =
      demoComparisonA.rows ∧
    ("license", JsVal.str noDataMessage).2 = JsVal.str noDataMessage :=
  ⟨(comparison_rating_passthrough [demoResearchNoData] demoComparisonA).1,
   (comparison_rating_passthrough [demoResearchNoData] demoComparisonA).2
     demoResearchNoData (by simp) (by decide) _ (by decide)⟩

/-- C6 counterexample: with the same research input (identical payload),
`generateComparisonTable` returns whatever rating string the model
produced — including one that is no star value at all — so the rating is
not obtained by mapping the 1-10 average onto the claimed breakpoints
(under which, e.g., an average of 9.2 would be forced to 5 stars). -/
theorem comparison_rating_cx :
    (generateComparisonTableModel [demoResearch] demoComparisonA).payload =
      (generateComparisonTableModel [demoResearch] demoComparisonB).payload ∧
    (generateComparisonTableModel [demoResearch] demoComparisonA).rows ≠
      (generateComparisonTableModel [demoResearch] demoComparisonB).rows ∧
    ((generateComparisonTableModel [demoResearch] demoComparisonB).rows.map
        ComparisonTableRow.rating) = ["totally-not-a-star-rating"] ∧
    "totally-not-a-star-rating" ∉ specStarStrings ∧
    specStarCount (92 / 10) = 5 ∧ specStarCount (449 / 100) = 1 :=
  ⟨by decide, by decide, by decide, by decide,
   by norm_num [specStarCount], by norm_num [specStarCount]⟩

/-- C7: in the non-Perplexity research flow the verification call is
skipped iff the first response parses and populates at least 5 fields
with non-placeholder values (`'Unknown'`/`'Not publicly disclosed'`
count as empty); otherwise a second call is issued carrying the first
response as an assistant turn, and its response is the final content. -/
theorem verification_gate :
    ∀ (platformName : String) (o : ResearchOracles) (prompt nowIso c1 : String),
      o.call1 = Except.ok c1 →
      (((researchPlatformModel platformName ResearchModelSel.tongyiDeepResearch o
          prompt nowIso).verificationSkipped = true) ↔
        (∃ vals, o.parseGate c1 = some vals ∧ 5 ≤ countGoodFields vals)) ∧
      (gateSkip o c1 = true →
        (researchPlatformModel platformName ResearchModelSel.tongyiDeepResearch o
          prompt nowIso).verifyIssued = false ∧
        (researchPlatformModel platformName ResearchModelSel.tongyiDeepResearch o
          prompt nowIso).networkCalls = 1 ∧
        (researchPlatformModel platformName ResearchModelSel.tongyiDeepResearch o
          prompt nowIso).finalContent = some c1) ∧
      (gateSkip o c1 = false →
        (researchPlatformModel platformName ResearchModelSel.tongyiDeepResearch o
          prompt nowIso).verifyIssued = true ∧
        (researchPlatformModel platformName ResearchModelSel.tongyiDeepResearch o
          prompt nowIso).networkCalls = 2 ∧
        (researchPlatformModel platformName ResearchModelSel.tongyiDeepResearch o
          prompt nowIso).verifyMessages = verifyMessagesOf prompt c1 ∧
        (∀ c2, o.call2 = Except.ok c2 →
          (researchPlatformModel platformName ResearchModelSel.tongyiDeepResearch o
            prompt nowIso).finalContent = some c2)) := by
  intro platformName o prompt nowIso c1 hc1
  have hskip :
      (researchPlatformModel platformName ResearchModelSel.tongyiDeepResearch o
        prompt nowIso).verificationSkipped = gateSkip o c1 := by
    by_cases hg : gateSkip o c1
    · cases hp : o.parseFinal c1 <;>
        simp [researchPlatformModel, hc1, hg, hp]
    · cases hc2 : o.call2 with
      | error e => simp [researchPlatformModel, hc1, hg, hc2]
      | ok c2 =>
          cases hp : o.parseFinal c2 <;>
            simp [researchPlatformModel, hc1, hg, hc2, hp]
  refine ⟨?_, ?_, ?_⟩
  · rw [hskip]
    unfold gateSkip
    cases hpg : o.parseGate c1 with
    | none => simp
    | some vals =>
        simp only [decide_eq_true_eq, Option.some.injEq]
        constructor
        · intro hcount; exact ⟨vals, rfl, hcount⟩
        · rintro ⟨vals2, hv2, hcount⟩; subst hv2; exact hcount
  · intro hg
    cases hp : o.parseFinal c1 <;>
      simp [researchPlatformModel, hc1, hg, hp]
  · intro hg
    cases hc2 : o.call2 with
    | error e =>
        refine ⟨?_, ?_, ?_, ?_⟩ <;>
          simp [researchPlatformModel, hc1, hg, hc2]
    | ok c2 =>
        cases hp : o.parseFinal c2 with
        | error e =>
            refine ⟨?_, ?_, ?_, ?_⟩ <;>
              simp [researchPlatformModel, hc1, hg, hc2, hp]
        | ok parsed =>
            refine ⟨?_, ?_, ?_, ?_⟩ <;>
              simp [researchPlatformModel, hc1, hg, hc2, hp]

theorem consTrunc_le (cons pros : List String) :
    (if cons.length < pros.length then cons
     else cons.take (pros.length - 1)).length ≤ pros.length - 1 := by
  by_cases h : cons.length < pros.length
  · simp only [h, if_true]
    omega
  · simp only [h, if_false, List.length_take]
    omega

/-- C8: with pros/cons enabled and zero model pros, the final pros fall
back in priority order to the research pros (verbatim whenever
non-empty), then the first 3 non-empty key features, then the
synthesized infosheet pros (only when both the model pros and the
research pros — and the key features — are empty); and the final cons
are truncated to at most `len(pros) - 1` items. -/
theorem review_pros_fallback :
    ∀ (parsedCons : List String) (research : PlatformResearch) (lang : JsLanguage),
      (research.pros ≠ [] →
        (reviewProsCons [] parsedCons research lang).1 = research.pros) ∧
      (research.pros = [] →
        research.keyFeatures.filter (fun f => f ≠ "") ≠ [] →
        (reviewProsCons [] parsedCons research lang).1 =
          (research.keyFeatures.filter (fun f => f ≠ "")).take 3) ∧
      (research.pros = [] →
        research.keyFeatures.filter (fun f => f ≠ "") = [] →
        (reviewProsCons [] parsedCons research lang).1 =
          buildFallbackProsFromInfosheet research lang) ∧
      (∀ parsedPros : List String,
        ((reviewProsCons parsedPros parsedCons research lang).2).length ≤
          ((reviewProsCons parsedPros parsedCons research lang).1).length - 1) := by
  intro parsedCons research lang
  refine ⟨?_, ?_, ?_, ?_⟩
  · intro h
    simp [reviewProsCons, List.length_pos, h]
  · intro h1 h2
    have hf : 0 < (research.keyFeatures.filter (fun f => f ≠ "")).length :=
      List.length_pos.mpr h2
    simp only [ne_eq, decide_not] at hf
    simp [reviewProsCons, h1, hf]
  · intro h1 h2
    have hf : (research.keyFeatures.filter (fun f => f ≠ "")).length = 0 := by
      rw [h2]
      rfl
    simp only [ne_eq, decide_not] at hf
    simp [reviewProsCons, h1, hf]
  · intro parsedPros
    simp only [reviewProsCons]
    exact consTrunc_le parsedCons _

/-- Witness for C8: concrete instances of each fallback tier and the
cons truncation (2 research pros are used verbatim when the model
returns none). -/
theorem review_pros_fallback_witness :
    (reviewProsCons [] ["c1", "c2", "c3"] demoResearch JsLanguage.english).1 =
      ["Fast payouts", "Good support"] ∧
    (reviewProsCons [] [] demoResearchNoPros JsLanguage.english).1 =
      (demoResearchNoPros.keyFeatures.filter (fun f => f ≠ "")).take 3 ∧
    (reviewProsCons [] [] demoResearchNoData JsLanguage.english).1 =
      buildFallbackProsFromInfosheet demoResearchNoData JsLanguage.english ∧
    ((reviewProsCons [] ["c1", "c2", "c3"] demoResearch JsLanguage.english).2).length ≤
      ((reviewProsCons [] ["c1", "c2", "c3"] demoResearch JsLanguage.english).1).length - 1 :=
  ⟨(review_pros_fallback ["c1", "c2", "c3"] demoResearch JsLanguage.english).1
      (by decide),
   (review_pros_fallback [] demoResearchNoPros JsLanguage.english).2.1
      (by decide) (by decide),
   (review_pros_fallback [] demoResearchNoData JsLanguage.english).2.2.1
      (by decide) (by decide),
   (review_pros_fallback ["c1", "c2", "c3"] demoResearch JsLanguage.english).2.2.2 []⟩

theorem string_ne_empty_of_length_pos (s : String) (h : 0 < s.length) : s ≠ "" := by
  intro he
  rw [he] at h
  simp at h

theorem joinSep_cons_length_ge (sep : String) (s : String) (l : List String) :
    s.length ≤ (joinSep sep (s :: l)).length := by
  cases l with
  | nil => simp [joinSep]
  | cons y t =>
      simp only [joinSep, String.length_append]
      omega

theorem buildCitationAnchor_length_pos (c : Citation) :
    0 < (buildCitationAnchor c).length := by
  unfold buildCitationAnchor
  simp only [String.length_append]
  have h9 : ("<a href=\"" : String).length = 9 := rfl
  omega

theorem anchors_ne_empty (c : Citation) (l : List String) :
    joinSep " " (buildCitationAnchor c :: l) ≠ "" := by
  apply string_ne_empty_of_length_pos
  calc 0 < (buildCitationAnchor c).length := buildCitationAnchor_length_pos c
    _ ≤ (joinSep " " (buildCitationAnchor c :: l)).length :=
        joinSep_cons_length_ge " " _ l

/-- C9 (amended): for every *non-empty* HTML string, the
citation-injection helper returns the HTML unchanged when the existing
anchor count reaches the minimum (or no citations are supplied), and
otherwise splices anchors built from the first
`min(|citations|, minCount - linkCount)` citations just before the last
`</p>` (or at the very end when no `</p>` exists); in particular, for
`"<p>Some text.</p>"` with at least 2 citations and a minimum of 2, the
two anchors are inserted before the `</p>`. -/
theorem citation_injection :
    (∀ (html : String) (citations : List Citation) (minCount : Nat),
      html ≠ "" →
      ((minCount ≤ countLinks html →
          ensureInTextCitations html citations minCount = html) ∧
       (citations = [] → ensureInTextCitations html citations minCount = html) ∧
       (countLinks html < minCount → citations ≠ [] →
          ensureInTextCitations html citations minCount =
            injectAnchors html
              (joinSep " "
                ((citations.take
                    (min citations.length (minCount - countLinks html))).map
                  buildCitationAnchor))))) ∧
    (∀ (c1 c2 : Citation) (rest : List Citation),
      ensureInTextCitations "<p>Some text.</p>" (c1 :: c2 :: rest) 2 =
        "<p>Some text." ++ " " ++
          (buildCitationAnchor c1 ++ " " ++ buildCitationAnchor c2) ++ "</p>") := by
  have main : ∀ (html : String) (citations : List Citation) (minCount : Nat),
      html ≠ "" →
      ((minCount ≤ countLinks html →
          ensureInTextCitations html citations minCount = html) ∧
       (citations = [] → ensureInTextCitations html citations minCount = html) ∧
       (countLinks html < minCount → citations ≠ [] →
          ensureInTextCitations html citations minCount =
            injectAnchors html
              (joinSep " "
                ((citations.take
                    (min citations.length (minCount - countLinks html))).map
                  buildCitationAnchor)))) := by
    intro html citations minCount hhtml
    refine ⟨?_, ?_, ?_⟩
    · intro hge
      unfold ensureInTextCitations
      rw [if_neg hhtml]
      by_cases hcit : citations = []
      · rw [if_pos hcit]
      · rw [if_neg hcit]
        simp only [if_pos hge]
    · intro hcit
      unfold ensureInTextCitations
      rw [if_neg hhtml, if_pos hcit]
    · intro hlt hcit
      obtain ⟨c, t, rfl⟩ : ∃ c t, citations = c :: t := by
        cases citations with
        | nil => exact absurd rfl hcit
        | cons c t => exact ⟨c, t, rfl⟩
      unfold ensureInTextCitations
      rw [if_neg hhtml, if_neg hcit]
      simp only [if_neg (Nat.not_le.mpr hlt)]
      obtain ⟨k, hk⟩ :
          ∃ k, min (c :: t).length (minCount - countLinks html) = k + 1 := by
        refine ⟨min (c :: t).length (minCount - countLinks html) - 1, ?_⟩
        simp only [List.length_cons]
        omega
      rw [hk, List.take_succ_cons, List.map_cons]
      rw [if_neg (anchors_ne_empty c _)]
  refine ⟨main, ?_⟩
  intro c1 c2 rest
  have hc : countLinks "<p>Some text.</p>" = 0 := by decide
  have h := (main "<p>Some text.</p>" (c1 :: c2 :: rest) 2 (by decide)).2.2
    (by rw [hc]; omega) (by simp)
  rw [h, hc]
  have hmin : min (c1 :: c2 :: rest).length (2 - 0) = 2 := by
    simp only [List.length_cons]
    omega
  rw [hmin]
  rw [show (c1 :: c2 :: rest).take 2 = [c1, c2] from by
    simp [List.take_succ_cons]]
  rw [show joinSep " " ([c1, c2].map buildCitationAnchor) =
      buildCitationAnchor c1 ++ " " ++ buildCitationAnchor c2 from rfl]
  unfold injectAnchors
  rw [show lastIndexOfStr "<p>Some text.</p>" "</p>" = some 13 from by decide]
  dsimp only
  rw [show stringTake "<p>Some text.</p>" 13 = "<p>Some text." from by decide]
  rw [show stringDrop "<p>Some text.</p>" 13 = "</p>" from by decide]

set_option maxRecDepth 8192 in
/-- Witness for C9: the characterization applied at concrete inputs,
with the concrete result containing the two injected anchors before the
closing paragraph tag. -/
theorem citation_injection_witness :
    ensureInTextCitations "<p>Some text.</p>" [demoCitationA, demoCitationB] 2 =
      "<p>Some text." ++ " " ++
        (buildCitationAnchor demoCitationA ++ " " ++
          buildCitationAnchor demoCitationB) ++ "</p>" ∧
    ensureInTextCitations "<p>ok</p>" [demoCitationA] 0 = "<p>ok</p>" ∧
    countLinks
      (ensureInTextCitations "<p>Some text.</p>" [demoCitationA, demoCitationB] 2) =
      2 :=
  ⟨citation_injection.2 demoCitationA demoCitationB [],
   ((citation_injection.1 "<p>ok</p>" [demoCitationA] 0 (by decide)).1 (by decide)),
   by decide⟩

/-- C9 counterexample: for the empty HTML string with two citations and
a minimum of 2, the helper returns the input unchanged — no anchors are
appended "at the very end" even though the anchor count (0) is below
the minimum and no `</p>` exists — because of the early `if (!html)`
return. -/
theorem citation_injection_empty_cx :
    ensureInTextCitations "" [demoCitationA, demoCitationB] 2 = "" ∧
    countLinks "" = 0 ∧ (0 : Nat) < 2 ∧
    lastIndexOfStr "" "</p>" = none :=
  ⟨by decide, by decide, by decide, by decide⟩

/-- C10 (amended): `extractCitationsFromSources` gives URL-shaped
sources the parsed hostname with a single *leading* `www.` stripped
(`'source'` when the URL does not parse) and non-URL sources the
`'research'` sentinel; the Perplexity citation path instead removes the
*first occurrence* of `'www.'` anywhere in the hostname and falls back
to the raw URL string as the domain when parsing throws. -/
theorem citation_domain_normalization :
    ∀ s : String,
      (isProbablyUrl s = true →
        (citationOfSource s).domain =
          stripLeadingWww ((urlHostname s).getD "source")) ∧
      (isProbablyUrl s = false → (citationOfSource s).domain = "research") ∧
      (∀ h, urlHostname s = some h →
        (perplexityCitationOfUrl s).domain = jsReplaceFirst h "www." "") ∧
      (urlHostname s = none → (perplexityCitationOfUrl s).domain = s) := by
  intro s
  refine ⟨?_, ?_, ?_, ?_⟩
  · intro h
    simp [citationOfSource, h]
  · intro h
    simp [citationOfSource, h]
  · intro h hh
    simp [perplexityCitationOfUrl, hh]
  · intro h
    simp [perplexityCitationOfUrl, h]

/-- Witness for C10: the domain rules applied at concrete inputs. -/
theorem citation_domain_normalization_witness :
    (citationOfSource "https://www.casino.org/review").domain =
      stripLeadingWww ((urlHostname "https://www.casino.org/review").getD "source") ∧
    (citationOfSource "AskGamblers report").domain = "research" ∧
    (perplexityCitationOfUrl "https://www.a.com/x").domain =
      jsReplaceFirst "www.a.com" "www." "" ∧
    (perplexityCitationOfUrl "www.foo").domain = "www.foo" :=
  ⟨(citation_domain_normalization "https://www.casino.org/review").1 (by decide),
   (citation_domain_normalization "AskGamblers report").2.1 (by decide),
   (citation_domain_normalization "https://www.a.com/x").2.2.1 "www.a.com" (by decide),
   (citation_domain_normalization "www.foo").2.2.2 (by decide)⟩

/-- C10 counterexample: the Perplexity citation path produces a `domain`
of `"www.foo"` (leading `www.` retained) for the unparseable citation
string `"www.foo"` — including inside a full `researchPlatform` run —
and strips `www.` mid-hostname (`en.www.example.com` becomes
`en.example.com`, though a leading-prefix strip would leave it
unchanged). -/
theorem citation_domain_cx :
    (perplexityCitationOfUrl "www.foo").domain = "www.foo" ∧
    jsStartsWith (perplexityCitationOfUrl "www.foo").domain "www." = true ∧
    urlHostname "https://en.www.example.com/p" = some "en.www.example.com" ∧
    (perplexityCitationOfUrl "https://en.www.example.com/p").domain =
      "en.example.com" ∧
    stripLeadingWww "en.www.example.com" = "en.www.example.com" ∧
    ((researchPlatformModel "Acme" ResearchModelSel.perplexitySonar
        demoSonarBadOracles "P" "T").result.citations.map Citation.domain) =
      ["www.foo"] :=
  ⟨by decide, by decide, by decide, by decide, by decide, by decide⟩

theorem cacheFind_eq_none_iff_not_any (m : List (String × α)) (k : String) :
    cacheFind m k = none ↔ m.any (fun p => p.1 = k) = false := by
  induction m with
  | nil => simp [cacheFind]
  | cons p t ih =>
      by_cases h : p.1 = k <;> simp [cacheFind, h, ih]

theorem cacheFind_append_one (m : List (String × α)) (k k2 : String) (v : α) :
    cacheFind (m ++ [(k, v)]) k2 =
      match cacheFind m k2 with
      | some w => some w
      | none => if k = k2 then some v else none := by
  induction m with
  | nil => simp [cacheFind]
  | cons p t ih =>
      by_cases h : p.1 = k2 <;> simp [cacheFind, h, ih]

theorem setKey_of_absent (m : List (String × α)) (k : String) (v : α)
    (h : cacheFind m k = none) : setKey m k v = m ++ [(k, v)] := by
  unfold setKey
  rw [if_neg]
  rw [(cacheFind_eq_none_iff_not_any m k).mp h]
  simp

theorem researchAllGo_fresh (oracle : String → PlatformResearch) (v : Vertical)
    (clock : Nat → Nat) :
    ∀ (names : List String) (i : Nat) (c : ResearchCache),
      (∀ n ∈ names, cacheFind c (jsToLower n) = none) →
      (names.map jsToLower).Nodup →
      (researchAllGo oracle v clock i names c).results = names.map oracle ∧
      (researchAllGo oracle v clock i names c).networkCalls = names.length ∧
      (researchAllGo oracle v clock i names c).fromCacheFlags =
        List.replicate names.length false ∧
      (∀ n ∈ names, ∃ j,
        cacheFind (researchAllGo oracle v clock i names c).cache (jsToLower n) =
          some ⟨oracle n, clock j, v⟩) ∧
      (∀ k, (∀ n ∈ names, k ≠ jsToLower n) →
        cacheFind (researchAllGo oracle v clock i names c).cache k =
          cacheFind c k) := by
  intro names
  induction names with
  | nil =>
      intro i c _ _
      exact ⟨rfl, rfl, rfl, by simp, fun k _ => rfl⟩
  | cons n ns ih =>
      intro i c habs hnd
      have hn : cacheFind c (jsToLower n) = none := habs n (List.mem_cons_self n ns)
      have hmiss : getFromResearchCache c (clock i) n v = none := by
        unfold getFromResearchCache
        rw [hn]
      have hset : saveToResearchCache c (clock i) n (oracle n) v =
          c ++ [(jsToLower n, ⟨oracle n, clock i, v⟩)] :=
        setKey_of_absent c (jsToLower n) _ hn
      have hnd2 : (ns.map jsToLower).Nodup := (List.nodup_cons.mp hnd).2
      have hnotin : jsToLower n ∉ ns.map jsToLower := (List.nodup_cons.mp hnd).1
      have habs2 : ∀ m ∈ ns,
          cacheFind (c ++ [(jsToLower n, (⟨oracle n, clock i, v⟩ : CachedResearch))])
            (jsToLower m) = none := by
        intro m hm
        rw [cacheFind_append_one, habs m (List.mem_cons_of_mem n hm)]
        have hne : jsToLower n ≠ jsToLower m := by
          intro hEq
          exact hnotin (hEq ▸ List.mem_map_of_mem jsToLower hm)
        simp [hne]
      obtain ⟨ihr, ihc, ihf, ihcache, ihpres⟩ :=
        ih (i + 1) (c ++ [(jsToLower n, ⟨oracle n, clock i, v⟩)]) habs2 hnd2
      have hstep :
          researchAllGo oracle v clock i (n :: ns) c =
            ⟨oracle n ::
               (researchAllGo oracle v clock (i + 1) ns
                  (c ++ [(jsToLower n, ⟨oracle n, clock i, v⟩)])).results,
             (researchAllGo oracle v clock (i + 1) ns
                (c ++ [(jsToLower n, ⟨oracle n, clock i, v⟩)])).cache,
             (researchAllGo oracle v clock (i + 1) ns
                (c ++ [(jsToLower n, ⟨oracle n, clock i, v⟩)])).networkCalls + 1,
             false ::
               (researchAllGo oracle v clock (i + 1) ns
                  (c ++ [(jsToLower n, ⟨oracle n, clock i, v⟩)])).fromCacheFlags⟩ := by
        conv_lhs => rw [researchAllGo]
        rw [hmiss]
        dsimp only
        rw [hset]
      rw [hstep]
      refine ⟨by simp [ihr], by simp [ihc], by simp [ihf, List.replicate_succ], ?_, ?_⟩
      · intro m hm
        rcases List.mem_cons.mp hm with hEq | hmem
        · subst hEq
          refine ⟨i, ?_⟩
          have hpres := ihpres (jsToLower m) ?_
          · rw [hpres, cacheFind_append_one, hn]
            simp
          · intro m2 hm2 hEq2
            exact hnotin (hEq2 ▸ List.mem_map_of_mem jsToLower hm2)
        · exact ihcache m hmem
      · intro k hk
        have hpres := ihpres k (fun m hm => hk m (List.mem_cons_of_mem n hm))
        rw [hpres, cacheFind_append_one, ]
        have hne : jsToLower n ≠ k := fun hEq =>
          hk n (List.mem_cons_self n ns) hEq.symm
        cases hfind : cacheFind c k with
        | none => simp [hne]
        | some w => simp

theorem researchAllGo_hits (oracle : String → PlatformResearch) (v : Vertical)
    (clock : Nat → Nat) :
    ∀ (names : List String) (i : Nat) (c : ResearchCache),
      (∀ n ∈ names, ∃ e, cacheFind c (jsToLower n) = some e ∧
        e.data = oracle n ∧ e.vertical = v ∧ e.data.researchStatus ≠ "error" ∧
        (∀ i2, clock i2 - e.timestamp ≤ cacheWindowMs)) →
      researchAllGo oracle v clock i names c =
        ⟨names.map oracle, c, 0, List.replicate names.length true⟩ := by
  intro names
  induction names with
  | nil => intro i c _; rfl
  | cons n ns ih =>
      intro i c hyp
      obtain ⟨e, he, hd, hv, hs, ht⟩ := hyp n (List.mem_cons_self n ns)
      have hhit : getFromResearchCache c (clock i) n v = some (oracle n) := by
        unfold getFromResearchCache
        rw [he]
        dsimp only
        rw [if_neg (by have h2 := ht i; omega)]
        rw [if_neg (by simp [hv])]
        rw [if_neg hs, hd]
      conv_lhs => rw [researchAllGo]
      rw [hhit]
      dsimp only
      rw [ih (i + 1) c (fun m hm => hyp m (List.mem_cons_of_mem n hm))]
      simp [List.replicate_succ]

/-- C3 (amended): starting from an empty research cache, with
case-insensitively distinct platform names whose research all succeeds
(no `'error'` statuses), a second `researchAllPlatforms` run with the
same list and vertical within the 24-hour window issues no network
calls, reports every platform as a cache hit, and returns results
identical to the first run's, in input order. -/
theorem batch_rerun_idempotent (oracle : String → PlatformResearch) (v : Vertical)
    (clock1 clock2 : Nat → Nat) (names : List String)
    (hnd : (names.map jsToLower).Nodup)
    (hok : ∀ n ∈ names, (oracle n).researchStatus ≠ "error")
    (hwin : ∀ i j, clock2 i - clock1 j ≤ cacheWindowMs) :
    (researchAllPlatformsModel oracle v clock1 names []).results =
      names.map oracle ∧
    (researchAllPlatformsModel oracle v clock1 names []).networkCalls =
      names.length ∧
    (researchAllPlatformsModel oracle v clock2 names
        (researchAllPlatformsModel oracle v clock1 names []).cache).results =
      (researchAllPlatformsModel oracle v clock1 names []).results ∧
    (researchAllPlatformsModel oracle v clock2 names
        (researchAllPlatformsModel oracle v clock1 names []).cache).networkCalls =
      0 ∧
    (researchAllPlatformsModel oracle v clock2 names
        (researchAllPlatformsModel oracle v clock1 names []).cache).fromCacheFlags =
      List.replicate names.length true := by
  obtain ⟨h1r, h1c, _, h1cache, _⟩ :=
    researchAllGo_fresh oracle v clock1 names 0 []
      (fun n _ => rfl) hnd
  have hyp2 : ∀ n ∈ names, ∃ e,
      cacheFind (researchAllPlatformsModel oracle v clock1 names []).cache
        (jsToLower n) = some e ∧
      e.data = oracle n ∧ e.vertical = v ∧ e.data.researchStatus ≠ "error" ∧
      (∀ i2, clock2 i2 - e.timestamp ≤ cacheWindowMs) := by
    intro n hn
    obtain ⟨j, hj⟩ := h1cache n hn
    exact ⟨⟨oracle n, clock1 j, v⟩, hj, rfl, rfl, hok n hn, fun i2 => hwin i2 j⟩
  have h2 := researchAllGo_hits oracle v clock2 names 0
    (researchAllPlatformsModel oracle v clock1 names []).cache hyp2
  unfold researchAllPlatformsModel at h2 ⊢
  rw [h2]
  exact ⟨h1r, h1c, by rw [h1r], rfl, rfl⟩

/-- Witness for C3: a concrete two-platform double run — the second run
issues zero network calls, flags both platforms as cache hits, and
reproduces the first run's results. -/
theorem batch_rerun_idempotent_witness :
    (researchAllPlatformsModel demoOkOracle Vertical.gambling (fun _ => 1000)
        ["Acme", "Bravo"]
        (researchAllPlatformsModel demoOkOracle Vertical.gambling (fun _ => 0)
          ["Acme", "Bravo"] []).cache).results =
      (researchAllPlatformsModel demoOkOracle Vertical.gambling (fun _ => 0)
        ["Acme", "Bravo"] []).results ∧
    (researchAllPlatformsModel demoOkOracle Vertical.gambling (fun _ => 1000)
        ["Acme", "Bravo"]
        (researchAllPlatformsModel demoOkOracle Vertical.gambling (fun _ => 0)
          ["Acme", "Bravo"] []).cache).networkCalls = 0 ∧
    (researchAllPlatformsModel demoOkOracle Vertical.gambling (fun _ => 1000)
        ["Acme", "Bravo"]
        (researchAllPlatformsModel demoOkOracle Vertical.gambling (fun _ => 0)
          ["Acme", "Bravo"] []).cache).fromCacheFlags =
      List.replicate 2 true :=
  have h := batch_rerun_idempotent demoOkOracle Vertical.gambling (fun _ => 0)
    (fun _ => 1000) ["Acme", "Bravo"] (by decide) (by decide)
    (fun i j => by show (1000 : Nat) - 0 ≤ cacheWindowMs; decide)
  ⟨h.2.2.1, h.2.2.2.1, h.2.2.2.2⟩

/-- C3 counterexample: when a platform's first-run research fails, the
failed record is cached but never served, so a second run within the
window issues a fresh network call (1, not 0) — the claim's "no new
network calls" does not hold after an arbitrary completed run. -/
theorem batch_rerun_error_cx :
    (researchAllPlatformsModel demoErrOracle Vertical.gambling (fun _ => 0)
      ["acme"] []).results.length = 1 ∧
    (researchAllPlatformsModel demoErrOracle Vertical.gambling (fun _ => 1000)
      ["acme"]
      (researchAllPlatformsModel demoErrOracle Vertical.gambling (fun _ => 0)
        ["acme"] []).cache).networkCalls = 1 ∧
    (researchAllPlatformsModel demoErrOracle Vertical.gambling (fun _ => 1000)
      ["acme"]
      (researchAllPlatformsModel demoErrOracle Vertical.gambling (fun _ => 0)
        ["acme"] []).cache).fromCacheFlags = [false] :=
  ⟨by decide, by decide, by decide⟩

/-- Witness for C7: with five populated fields the verification call is
skipped and the first response is final; with placeholder-only fields a
second call is issued with the first response as the assistant turn and
its response is final. -/
theorem verification_gate_witness :
    ((researchPlatformModel "Acme" ResearchModelSel.tongyiDeepResearch
        demoSkipOracles "P" "T").verifyIssued = false ∧
      (researchPlatformModel "Acme" ResearchModelSel.tongyiDeepResearch
        demoSkipOracles "P" "T").networkCalls = 1 ∧
      (researchPlatformModel "Acme" ResearchModelSel.tongyiDeepResearch
        demoSkipOracles "P" "T").finalContent = some "FIRST") ∧
    (researchPlatformModel "Acme" ResearchModelSel.tongyiDeepResearch
      demoNoSkipOracles "P" "T").verifyMessages = verifyMessagesOf "P" "FIRST" ∧
    (researchPlatformModel "Acme" ResearchModelSel.tongyiDeepResearch
      demoNoSkipOracles "P" "T").finalContent = some "SECOND" :=
  ⟨(verification_gate "Acme" demoSkipOracles "P" "T" "FIRST" rfl).2.1 (by decide),
   ((verification_gate "Acme" demoNoSkipOracles "P" "T" "FIRST" rfl).2.2
       (by decide)).2.2.1,
   ((verification_gate "Acme" demoNoSkipOracles "P" "T" "FIRST" rfl).2.2
       (by decide)).2.2.2 "SECOND" rfl⟩
